import Mathlib

/-!
Shallow embedding of the `compose_whitelist` Terraform resource
(`resource_compose_whitelist.go`): the CRUD entry points
`resourceComposeWhitelistCreate`, `resourceComposeWhitelistRead`,
`resourceComposeWhitelistDelete`, `resourceComposeWhitelistImport`, and the
polling predicate `whitelistCompletedRefreshFunc`, together with a model of
the host framework's bounded polling loop (`StateChangeConf.WaitForState`),
which is external to the repository and is modelled from the spec.

Remote interactions are embedded by passing their results in explicitly:
a `ReadResult` is the outcome of one `GetWhitelistForDeployment` call, and
the write calls (`AddWhitelistForDeployment`, `DeleteWhitelistForDeployment`)
are represented by an optional error string.
-/

namespace Compose

/-- A whitelist entry as returned by the remote read API:
`{ID: string, IP: string (CIDR), Description: string}`. -/
structure WhitelistEntry where
  ID : String
  IP : String
  Description : String
deriving Repr, DecidableEq

/-- The outcome of one `GetWhitelistForDeployment` call: either the remote
read failed with an error, or it returned the full current listing of
whitelist entries for the deployment. -/
inductive ReadResult where
  | err (e : String)
  | ok (entries : List WhitelistEntry)
deriving Repr, DecidableEq

/-- The Terraform resource's local state: the persisted identifier (`d.Id()`)
and the three schema attributes. -/
structure ResourceData where
  id : String
  deployment_id : String
  ip : String
  description : String
deriving Repr, DecidableEq

/-- `whitelistCompletedRefreshFunc(client, deploymentid, whitelistip)`:
lists the deployment's whitelist; on a read error it returns the error;
otherwise it linearly scans for the first entry whose `IP` equals
`whitelistip`, returning `(entry.ID, "existing")` when found and
`(nil, "")` when not found. The returned pair is the refresh value
(`interface{}`, here `Option String`) and the state string. -/
def whitelistCompletedRefreshFunc (whitelistip : String) (r : ReadResult) :
    Except String (Option String × String) :=
  match r with
  | .err e => .error e
  | .ok entries =>
    match entries.find? (fun w => w.IP == whitelistip) with
    | some w => .ok (some w.ID, "existing")
    | none => .ok (none, "")

/-- Modelled from the spec: the host framework's bounded polling loop
(`resource.StateChangeConf.WaitForState`), which is not part of this
repository's sources. Per the spec (section 4.1), the poller repeatedly
invokes the refresh predicate: a predicate error aborts immediately and is
surfaced as-is; when the target set is empty (delete path) a nil value means
the object is gone and the poll settles; a state in the target list means
settled (create path) and the carried value is returned; otherwise the poll
remains pending and retries. The list argument is the schedule of successive
read results, one per predicate invocation; exhausting it models the timeout
window elapsing, surfaced as a timeout error. -/
def waitForState (target : List String)
    (refresh : ReadResult → Except String (Option String × String)) :
    List ReadResult → Except String (Option String)
  | [] => .error "timeout while waiting for state"
  | r :: rs =>
    match refresh r with
    | .error e => .error e
    | .ok (v, s) =>
      if target.isEmpty then
        if v.isNone then .ok none else waitForState target refresh rs
      else if target.contains s then .ok v
      else waitForState target refresh rs

/-- The poll timeout configured on both the create and delete paths:
`Timeout: 5 * time.Minute`, in seconds. -/
def whitelistPollTimeoutSeconds : Nat := 5 * 60

/-- The initial delay configured on both paths: `Delay: 10 * time.Second`. -/
def whitelistPollDelaySeconds : Nat := 10

/-- The minimum poll interval configured on both paths:
`MinTimeout: 3 * time.Second`. -/
def whitelistPollMinIntervalSeconds : Nat := 3

/-- Modelled from the spec: the number of predicate invocations performed
when the target never reaches the desired state — one poll once the initial
delay has elapsed, then one further poll per minimum interval until the
timeout window is exhausted. -/
def pollCount (timeout delay minInterval : Nat) : Nat :=
  (timeout - delay) / minInterval + 1

/-- `resourceComposeWhitelistRead`: lists the deployment's whitelist; a read
error is surfaced as `Error querying whitelist entry: ...`; otherwise the
first entry whose `ID` equals the persisted identifier refreshes the
`description` and `ip` attributes, and if no entry carries that identifier
the identifier is cleared (`d.SetId("")`). -/
def resourceComposeWhitelistRead (d : ResourceData) (read : ReadResult) :
    Except String ResourceData :=
  match read with
  | .err e => .error ("Error querying whitelist entry: " ++ e)
  | .ok entries =>
    match entries.find? (fun w => w.ID == d.id) with
    | some w => .ok { d with description := w.Description, ip := w.IP }
    | none => .ok { d with id := "" }

/-- `resourceComposeWhitelistCreate`: issues the remote add (its outcome is
`addErr`, `some e` being a write failure), then polls with
`whitelistCompletedRefreshFunc` under `Target: ["existing"]` over the read
schedule `polls`, then performs one further listing (`finalRead`) and scans
it for the first entry whose `Description` equals the requested description,
persisting that entry's `ID` and finishing with `resourceComposeWhitelistRead`
against `readAfter`; when no description matches it fails with
`Failed to find newly created whitelist entry`. -/
def resourceComposeWhitelistCreate (d : ResourceData) (addErr : Option String)
    (polls : List ReadResult) (finalRead : ReadResult) (readAfter : ReadResult) :
    Except String ResourceData :=
  match addErr with
  | some e => .error ("Error adding whitelist entry: " ++ e)
  | none =>
    match waitForState ["existing"] (whitelistCompletedRefreshFunc d.ip) polls with
    | .error e => .error e
    | .ok _ =>
      match finalRead with
      | .err e => .error ("Error querying whitelist entry: " ++ e)
      | .ok entries =>
        match entries.find? (fun w => w.Description == d.description) with
        | some w => resourceComposeWhitelistRead { d with id := w.ID } readAfter
        | none => .error "Failed to find newly created whitelist entry"

/-- `resourceComposeWhitelistDelete`: issues the remote delete (its outcome
is `deleteErr`), then polls with `whitelistCompletedRefreshFunc` under
`Pending: ["existing"]`, `Target: []` over the read schedule `polls` until
the entry's IP is absent from the listing. -/
def resourceComposeWhitelistDelete (d : ResourceData) (deleteErr : Option String)
    (polls : List ReadResult) : Except String Unit :=
  match deleteErr with
  | some e => .error ("Error deleting whitelist entry: " ++ e)
  | none =>
    match waitForState [] (whitelistCompletedRefreshFunc d.ip) polls with
    | .error e => .error e
    | .ok _ => .ok ()

/-- The outcome of the import entry point: Go distinguishes a runtime panic
(index out of range on `s[1]`) from an ordinary returned error and from
success. -/
inductive ImportResult where
  | panicked
  | errored (msg : String)
  | ok (d : ResourceData)
deriving Repr, DecidableEq

/-- `resourceComposeWhitelistImport`: splits the supplied external identifier
on `"@"` (`strings.Split`, embedded as `List.splitOn` on the character
list) and takes `s[0]` as the deployment and `s[1]` as the IP — when the
split yields fewer than two components the `s[1]` access panics. It then
lists that deployment's whitelist (`getWhitelist`), surfaces a read error,
and scans for the first entry whose `IP` equals the parsed IP, populating
the resource from it; with no match it returns `Whitelist item not found`. -/
def resourceComposeWhitelistImport (d : ResourceData)
    (getWhitelist : String → ReadResult) : ImportResult :=
  match d.id.toList.splitOn '@' with
  | deploymentID :: ip :: _ =>
    match getWhitelist (String.mk deploymentID) with
    | .err e => .errored ("Error querying whitelist entry: " ++ e)
    | .ok entries =>
      match entries.find? (fun w => w.IP == String.mk ip) with
      | some w =>
        .ok { id := w.ID, deployment_id := String.mk deploymentID,
              ip := w.IP, description := w.Description }
      | none => .errored "Whitelist item not found"
  | _ => .panicked

/-! ### Helper lemmas -/

/-- A listing with no IP match makes the refresh scan come up empty. -/
theorem findIP_eq_none (ip : String) (l : List WhitelistEntry)
    (h : ∀ w ∈ l, w.IP ≠ ip) : l.find? (fun w => w.IP == ip) = none :=
  List.find?_eq_none.mpr fun w hw => by simpa using h w hw

/-- A listing with an IP match makes the refresh scan find some entry,
and that entry's IP equals the target. -/
theorem findIP_eq_some (ip : String) (l : List WhitelistEntry)
    (h : ∃ w ∈ l, w.IP = ip) :
    ∃ w2, l.find? (fun w => w.IP == ip) = some w2 ∧ w2 ∈ l ∧ w2.IP = ip := by
  have hs : (l.find? (fun w => w.IP == ip)).isSome :=
    List.find?_isSome.mpr (by obtain ⟨w, hw, hip⟩ := h; exact ⟨w, hw, by simp [hip]⟩)
  obtain ⟨w2, hw2⟩ := Option.isSome_iff_exists.mp hs
  exact ⟨w2, hw2, List.mem_of_find?_eq_some hw2, by simpa using List.find?_some hw2⟩

/-- Under the create configuration, a prefix of listings with no IP match is
skipped: each such poll is classified pending and the loop recurses. -/
theorem waitForState_skip_create (ip : String) (rs1 rs2 : List ReadResult)
    (h : ∀ r ∈ rs1, ∃ l, r = ReadResult.ok l ∧ ∀ w ∈ l, w.IP ≠ ip) :
    waitForState ["existing"] (whitelistCompletedRefreshFunc ip) (rs1 ++ rs2) =
      waitForState ["existing"] (whitelistCompletedRefreshFunc ip) rs2 := by
  induction rs1 with
  | nil => rfl
  | cons r rs ih =>
    obtain ⟨l, hr, hl⟩ := h r (List.mem_cons_self r rs)
    subst hr
    have hf := findIP_eq_none ip l hl
    have ih2 := ih fun r2 hr2 => h r2 (List.mem_cons_of_mem _ hr2)
    simpa [waitForState, whitelistCompletedRefreshFunc, hf] using ih2

/-- Under the delete configuration, a prefix of listings that still contain
an IP match is skipped: each such poll is classified pending and the loop
recurses. -/
theorem waitForState_skip_delete (ip : String) (rs1 rs2 : List ReadResult)
    (h : ∀ r ∈ rs1, ∃ l, r = ReadResult.ok l ∧ ∃ w ∈ l, w.IP = ip) :
    waitForState [] (whitelistCompletedRefreshFunc ip) (rs1 ++ rs2) =
      waitForState [] (whitelistCompletedRefreshFunc ip) rs2 := by
  induction rs1 with
  | nil => rfl
  | cons r rs ih =>
    obtain ⟨l, hr, hl⟩ := h r (List.mem_cons_self r rs)
    subst hr
    obtain ⟨w2, hf, _, _⟩ := findIP_eq_some ip l hl
    have ih2 := ih fun r2 hr2 => h r2 (List.mem_cons_of_mem _ hr2)
    simpa [waitForState, whitelistCompletedRefreshFunc, hf] using ih2

/-! ### Claim theorems -/

/-- C2: one invocation of the polling predicate on a listing returned by the
read endpoint classifies the state as settled (`"existing"`, carrying the
matched entry's ID) if and only if some entry in the listing has IP equal to
the target IP, and otherwise classifies it as pending (empty state string,
nil value). -/
theorem refresh_classifies_by_ip (ip : String) (l : List WhitelistEntry) :
    ((∃ w ∈ l, w.IP = ip) ↔
      ∃ w ∈ l, w.IP = ip ∧
        whitelistCompletedRefreshFunc ip (ReadResult.ok l) =
          Except.ok (some w.ID, "existing"))
  ∧ ((∀ w ∈ l, w.IP ≠ ip) ↔
      whitelistCompletedRefreshFunc ip (ReadResult.ok l) =
        Except.ok (none, "")) := by
  by_cases hex : ∃ w ∈ l, w.IP = ip
  · obtain ⟨w2, hf, hmem, hip⟩ := findIP_eq_some ip l hex
    refine ⟨⟨fun _ => ⟨w2, hmem, hip, by simp [whitelistCompletedRefreshFunc, hf]⟩,
             fun ⟨w, hw, hip2, _⟩ => ⟨w, hw, hip2⟩⟩,
            ⟨fun hall => absurd hip (hall w2 hmem),
             fun heq => by simp [whitelistCompletedRefreshFunc, hf] at heq⟩⟩
  · have hall : ∀ w ∈ l, w.IP ≠ ip := fun w hw hip => hex ⟨w, hw, hip⟩
    have hf := findIP_eq_none ip l hall
    refine ⟨⟨fun h => absurd h hex,
             fun ⟨w, hw, hip2, _⟩ => absurd ⟨w, hw, hip2⟩ hex⟩,
            ⟨fun _ => by simp [whitelistCompletedRefreshFunc, hf],
             fun _ => hall⟩⟩

/-- Witness for C2 at a concrete empty listing: the predicate reports the
pending classification. -/
theorem refresh_classifies_by_ip_witness :
    whitelistCompletedRefreshFunc "10.0.0.0/24" (ReadResult.ok []) =
      Except.ok (none, "") :=
  (refresh_classifies_by_ip "10.0.0.0/24" []).2.mp (by simp)

/-- C3: under the delete configuration (`Pending: ["existing"]`, `Target: []`)
the poller settles in the terminal absent state exactly when no entry in the
current listing has IP equal to the target IP; it matches on IP only and the
deleted entry's identifier plays no role, so an entry with the same IP but a
different ID keeps the poll pending (the loop just recurses on the remaining
schedule). -/
theorem delete_poll_matches_ip_only (ip deletedId : String)
    (l : List WhitelistEntry) (rs : List ReadResult) :
    ((∀ w ∈ l, w.IP ≠ ip) →
      waitForState [] (whitelistCompletedRefreshFunc ip)
          (ReadResult.ok l :: rs) = Except.ok none)
  ∧ (∀ w ∈ l, w.IP = ip → w.ID ≠ deletedId →
      waitForState [] (whitelistCompletedRefreshFunc ip)
          (ReadResult.ok l :: rs) =
        waitForState [] (whitelistCompletedRefreshFunc ip) rs) := by
  constructor
  · intro hall
    have hf := findIP_eq_none ip l hall
    simp [waitForState, whitelistCompletedRefreshFunc, hf]
  · intro w hw hip _
    obtain ⟨w2, hf, _, _⟩ := findIP_eq_some ip l ⟨w, hw, hip⟩
    simp [waitForState, whitelistCompletedRefreshFunc, hf]

/-- Witness for C3 at a concrete listing with no matching entry: the delete
poll settles immediately with the absent state. -/
theorem delete_poll_matches_ip_only_witness :
    waitForState [] (whitelistCompletedRefreshFunc "10.0.0.0/24")
        (ReadResult.ok [] :: []) = Except.ok none :=
  (delete_poll_matches_ip_only "10.0.0.0/24" "abc123" [] []).1 (by simp)

/-- C7: when the remote write call fails (`AddWhitelistForDeployment` on
create, `DeleteWhitelistForDeployment` on delete), the operation returns the
corresponding error immediately; the result does not depend on any poll
schedule or subsequent read result (no polling, no further reads), and no
successor state is produced (the local resource state is unchanged). -/
theorem write_failure_aborts (d : ResourceData) (e : String)
    (polls : List ReadResult) (finalRead readAfter : ReadResult) :
    resourceComposeWhitelistCreate d (some e) polls finalRead readAfter =
      Except.error ("Error adding whitelist entry: " ++ e)
  ∧ resourceComposeWhitelistDelete d (some e) polls =
      Except.error ("Error deleting whitelist entry: " ++ e) :=
  ⟨rfl, rfl⟩

/-- C4: if the read endpoint fails on any predicate invocation, the poll
returns exactly that error and performs no further predicate invocations:
after any pending prefix, the error is surfaced and the rest of the schedule
(`rs2`, universally quantified) is never consulted. Shown for both the
create configuration (pending = no IP match yet) and the delete
configuration (pending = IP still present). -/
theorem read_error_aborts_poll (ip e : String) (rs1 rs1d rs2 : List ReadResult)
    (hpend : ∀ r ∈ rs1, ∃ l, r = ReadResult.ok l ∧ ∀ w ∈ l, w.IP ≠ ip)
    (hpendd : ∀ r ∈ rs1d, ∃ l, r = ReadResult.ok l ∧ ∃ w ∈ l, w.IP = ip) :
    waitForState ["existing"] (whitelistCompletedRefreshFunc ip)
        (rs1 ++ ReadResult.err e :: rs2) = Except.error e
  ∧ waitForState [] (whitelistCompletedRefreshFunc ip)
        (rs1d ++ ReadResult.err e :: rs2) = Except.error e := by
  constructor
  · rw [waitForState_skip_create ip rs1 _ hpend]
    rfl
  · rw [waitForState_skip_delete ip rs1d _ hpendd]
    rfl

/-- Witness for C4: a concrete pending poll followed by a read failure
surfaces that failure on both configurations. -/
theorem read_error_aborts_poll_witness :
    waitForState ["existing"] (whitelistCompletedRefreshFunc "10.0.0.0/24")
        ([ReadResult.ok []] ++ ReadResult.err "read failed" :: []) =
      Except.error "read failed"
  ∧ waitForState [] (whitelistCompletedRefreshFunc "10.0.0.0/24")
        ([ReadResult.ok [⟨"abc123", "10.0.0.0/24", "d"⟩]] ++
            ReadResult.err "read failed" :: []) =
      Except.error "read failed" :=
  read_error_aborts_poll "10.0.0.0/24" "read failed"
    [ReadResult.ok []] [ReadResult.ok [⟨"abc123", "10.0.0.0/24", "d"⟩]] []
    (by intro r hr
        rw [List.mem_singleton] at hr
        exact ⟨[], hr, by simp⟩)
    (by intro r hr
        rw [List.mem_singleton] at hr
        exact ⟨[⟨"abc123", "10.0.0.0/24", "d"⟩], hr, by decide⟩)

/-- C5: when the target IP is absent from every listing, the poll runs to the
end of its schedule and returns a timeout error; with the configured
parameters (timeout 5 minutes, initial delay 10 seconds, minimum interval
3 seconds) the schedule holds `pollCount` = 97 predicate invocations, which
is at least one and at most `timeout / minInterval + 1` = 101. -/
theorem absent_targets_time_out (ip : String) (rs : List ReadResult)
    (habs : ∀ r ∈ rs, ∃ l, r = ReadResult.ok l ∧ ∀ w ∈ l, w.IP ≠ ip)
    (hlen : rs.length = pollCount whitelistPollTimeoutSeconds
        whitelistPollDelaySeconds whitelistPollMinIntervalSeconds) :
    waitForState ["existing"] (whitelistCompletedRefreshFunc ip) rs =
      Except.error "timeout while waiting for state"
  ∧ 1 ≤ rs.length
  ∧ rs.length ≤
      whitelistPollTimeoutSeconds / whitelistPollMinIntervalSeconds + 1 := by
  have h1 := waitForState_skip_create ip rs [] habs
  rw [List.append_nil] at h1
  refine ⟨h1.trans rfl, ?_, ?_⟩ <;> rw [hlen] <;> decide

/-- Witness for C5: a concrete 97-poll schedule of empty listings times out. -/
theorem absent_targets_time_out_witness :
    waitForState ["existing"] (whitelistCompletedRefreshFunc "10.0.0.0/24")
        (List.replicate 97 (ReadResult.ok [])) =
      Except.error "timeout while waiting for state"
  ∧ 1 ≤ (List.replicate 97 (ReadResult.ok []) : List ReadResult).length
  ∧ (List.replicate 97 (ReadResult.ok []) : List ReadResult).length ≤
      whitelistPollTimeoutSeconds / whitelistPollMinIntervalSeconds + 1 :=
  absent_targets_time_out "10.0.0.0/24" (List.replicate 97 (ReadResult.ok []))
    (fun r hr => ⟨[], List.eq_of_mem_replicate hr, by simp⟩) (by decide)

/-- C9: the polling predicate is deterministic and idempotent with respect to
the read endpoint's state: re-invoking it on an unchanged pending listing
changes nothing (the extra invocation is absorbed), and a settled listing
yields the same settled classification and the same carried value no matter
what schedule follows. -/
theorem refresh_idempotent_poll (ip : String) (r : ReadResult)
    (rs rs2 : List ReadResult) :
    (whitelistCompletedRefreshFunc ip r = Except.ok (none, "") →
      waitForState ["existing"] (whitelistCompletedRefreshFunc ip)
          (r :: r :: rs) =
        waitForState ["existing"] (whitelistCompletedRefreshFunc ip) (r :: rs))
  ∧ (∀ id2, whitelistCompletedRefreshFunc ip r =
        Except.ok (some id2, "existing") →
      waitForState ["existing"] (whitelistCompletedRefreshFunc ip) (r :: rs) =
          Except.ok (some id2)
      ∧ waitForState ["existing"] (whitelistCompletedRefreshFunc ip) (r :: rs2) =
          Except.ok (some id2)) := by
  constructor
  · intro h
    simp [waitForState, h]
  · intro id2 h
    constructor <;> simp [waitForState, h]

/-- Witness for C9: an unchanged empty listing polled twice yields the same
outcome as polling it once. -/
theorem refresh_idempotent_poll_witness :
    waitForState ["existing"] (whitelistCompletedRefreshFunc "10.0.0.0/24")
        (ReadResult.ok [] :: ReadResult.ok [] :: []) =
      waitForState ["existing"] (whitelistCompletedRefreshFunc "10.0.0.0/24")
        (ReadResult.ok [] :: []) :=
  (refresh_idempotent_poll "10.0.0.0/24" (ReadResult.ok []) [] []).1 rfl

/-- C6: importing an external identifier of the form `<deployment>@<ip>`
returns, when the deployment's listing holds an entry with the parsed IP, a
single resource populated from the first such entry (its ID becoming the
resource identifier, `deployment_id` the parsed deployment, `ip` and
`description` copied from the entry); with no matching entry it returns the
distinct `Whitelist item not found` error, not a success and not the
I/O-failure message. -/
theorem import_matches_by_ip (d : ResourceData) (dep ip : List Char)
    (rest : List (List Char)) (getWhitelist : String → ReadResult)
    (l : List WhitelistEntry)
    (hsplit : d.id.toList.splitOn '@' = dep :: ip :: rest)
    (hread : getWhitelist (String.mk dep) = ReadResult.ok l) :
    (∀ w, l.find? (fun e2 => e2.IP == String.mk ip) = some w →
      resourceComposeWhitelistImport d getWhitelist =
        ImportResult.ok { id := w.ID, deployment_id := String.mk dep,
                          ip := w.IP, description := w.Description })
  ∧ ((∀ w ∈ l, w.IP ≠ String.mk ip) →
      resourceComposeWhitelistImport d getWhitelist =
        ImportResult.errored "Whitelist item not found") := by
  simp only [String.toList] at hsplit
  constructor
  · intro w hw
    simp [resourceComposeWhitelistImport, hsplit, hread, hw]
  · intro hall
    have hf := findIP_eq_none (String.mk ip) l hall
    simp [resourceComposeWhitelistImport, hsplit, hread, hf]

/-- Witness for C6: importing `"d1@10.0.0.0/24"` against a listing holding a
matching entry returns that entry's populated state. -/
theorem import_matches_by_ip_witness :
    resourceComposeWhitelistImport ⟨"d1@10.0.0.0/24", "", "", ""⟩
        (fun _ => ReadResult.ok [⟨"abc123", "10.0.0.0/24", "imported"⟩]) =
      ImportResult.ok ⟨"abc123", "d1", "10.0.0.0/24", "imported"⟩ :=
  (import_matches_by_ip ⟨"d1@10.0.0.0/24", "", "", ""⟩ "d1".toList
      "10.0.0.0/24".toList []
      (fun _ => ReadResult.ok [⟨"abc123", "10.0.0.0/24", "imported"⟩])
      [⟨"abc123", "10.0.0.0/24", "imported"⟩] (by decide) rfl).1
    ⟨"abc123", "10.0.0.0/24", "imported"⟩ rfl

/-- C8: an import identifier containing no `@` separator makes
`strings.Split` return a single component, so the `s[1]` access panics with
an index-out-of-range failure instead of returning an error; import is only
safe when the identifier contains at least one `@`. -/
theorem import_panics_without_separator (d : ResourceData)
    (getWhitelist : String → ReadResult) (h : '@' ∉ d.id.toList) :
    resourceComposeWhitelistImport d getWhitelist = ImportResult.panicked := by
  have hs : d.id.toList.splitOn '@' = [d.id.toList] := by
    rw [List.splitOn]
    refine List.splitOnP_eq_single _ _ fun x hx => ?_
    simp only [beq_iff_eq]
    intro hxe
    exact h (hxe ▸ hx)
  rw [resourceComposeWhitelistImport, hs]

/-- Witness for C8: an identifier missing the deployment prefix (a bare CIDR,
no `@`) makes import panic. -/
theorem import_panics_without_separator_witness :
    resourceComposeWhitelistImport ⟨"10.0.0.0/24", "", "", ""⟩
        (fun _ => ReadResult.ok []) = ImportResult.panicked :=
  import_panics_without_separator ⟨"10.0.0.0/24", "", "", ""⟩
    (fun _ => ReadResult.ok []) (by decide)

/-- C10: once the create poll settles, create performs one further listing
and scans it by `Description`, not by IP: when some entry's description
equals the requested one, the first such entry's ID is persisted and create
finishes by re-reading that ID; when no description matches, create fails
with `Failed to find newly created whitelist entry` even though the poll
(hypothesis `hsettle`) had confirmed an entry with the requested IP. -/
theorem create_matches_by_description (d : ResourceData)
    (polls : List ReadResult) (v : Option String) (l : List WhitelistEntry)
    (readAfter : ReadResult)
    (hsettle : waitForState ["existing"] (whitelistCompletedRefreshFunc d.ip)
        polls = Except.ok v) :
    (∀ w, l.find? (fun e2 => e2.Description == d.description) = some w →
      resourceComposeWhitelistCreate d none polls (ReadResult.ok l) readAfter =
        resourceComposeWhitelistRead { d with id := w.ID } readAfter)
  ∧ ((∀ w ∈ l, w.Description ≠ d.description) →
      resourceComposeWhitelistCreate d none polls (ReadResult.ok l) readAfter =
        Except.error "Failed to find newly created whitelist entry") := by
  constructor
  · intro w hw
    simp [resourceComposeWhitelistCreate, hsettle, hw]
  · intro hall
    have hf : l.find? (fun e2 => e2.Description == d.description) = none :=
      List.find?_eq_none.mpr fun w hw => by simpa using hall w hw
    simp [resourceComposeWhitelistCreate, hsettle, hf]

/-- Witness for C10: with a settled poll and a listing whose only entry
carries the requested description, create persists that entry's ID and
delegates to the read entry point. -/
theorem create_matches_by_description_witness :
    resourceComposeWhitelistCreate ⟨"", "d1", "10.0.0.0/24", "mydesc"⟩ none
        [ReadResult.ok [⟨"abc123", "10.0.0.0/24", "mydesc"⟩]]
        (ReadResult.ok [⟨"abc123", "10.0.0.0/24", "mydesc"⟩])
        (ReadResult.ok [⟨"abc123", "10.0.0.0/24", "mydesc"⟩]) =
      resourceComposeWhitelistRead ⟨"abc123", "d1", "10.0.0.0/24", "mydesc"⟩
        (ReadResult.ok [⟨"abc123", "10.0.0.0/24", "mydesc"⟩]) :=
  (create_matches_by_description ⟨"", "d1", "10.0.0.0/24", "mydesc"⟩
      [ReadResult.ok [⟨"abc123", "10.0.0.0/24", "mydesc"⟩]] (some "abc123")
      [⟨"abc123", "10.0.0.0/24", "mydesc"⟩]
      (ReadResult.ok [⟨"abc123", "10.0.0.0/24", "mydesc"⟩]) rfl).1
    ⟨"abc123", "10.0.0.0/24", "mydesc"⟩ rfl

/-- Counterexample to C1: the create poll settles on the entry with ID `"A"`
(the one whose IP equals the requested `10.0.0.0/24`), yet create succeeds
persisting identifier `"B"` — the ID of the entry whose *Description*
matches the request in the post-settle listing — and `"B" ≠ "A"`, so the
persisted identifier is not the poll's matched-entry identifier. -/
theorem create_returns_poll_value_counterexample :
    waitForState ["existing"] (whitelistCompletedRefreshFunc "10.0.0.0/24")
        [ReadResult.ok [⟨"A", "10.0.0.0/24", "other"⟩,
                        ⟨"B", "192.168.0.0/16", "wanted"⟩]] =
      Except.ok (some "A")
  ∧ resourceComposeWhitelistCreate ⟨"", "d1", "10.0.0.0/24", "wanted"⟩ none
        [ReadResult.ok [⟨"A", "10.0.0.0/24", "other"⟩,
                        ⟨"B", "192.168.0.0/16", "wanted"⟩]]
        (ReadResult.ok [⟨"A", "10.0.0.0/24", "other"⟩,
                        ⟨"B", "192.168.0.0/16", "wanted"⟩])
        (ReadResult.ok [⟨"A", "10.0.0.0/24", "other"⟩,
                        ⟨"B", "192.168.0.0/16", "wanted"⟩]) =
      Except.ok ⟨"B", "d1", "192.168.0.0/16", "wanted"⟩
  ∧ ("B" : String) ≠ "A" :=
  ⟨rfl, rfl, by decide⟩

/-- C1 as amended: for a successful create, the identifier persisted is that
of the first entry whose Description equals the requested description in the
fresh listing taken after the poll settles (here with the state unchanged
between that listing and the final read), not necessarily the identifier of
the entry whose IP matched during polling. -/
theorem create_persists_description_match (d : ResourceData)
    (polls : List ReadResult) (v : Option String) (l : List WhitelistEntry)
    (w : WhitelistEntry)
    (hsettle : waitForState ["existing"] (whitelistCompletedRefreshFunc d.ip)
        polls = Except.ok v)
    (hdesc : l.find? (fun e2 => e2.Description == d.description) = some w)
    (hid : l.find? (fun e2 => e2.ID == w.ID) = some w) :
    resourceComposeWhitelistCreate d none polls (ReadResult.ok l)
        (ReadResult.ok l) =
      Except.ok { d with id := w.ID, description := w.Description,
                         ip := w.IP } := by
  simp [resourceComposeWhitelistCreate, resourceComposeWhitelistRead,
    hsettle, hdesc, hid]

/-- Witness for the amended C1 on the counterexample listing: the persisted
identifier is `"B"`, the description-matched entry. -/
theorem create_persists_description_match_witness :
    resourceComposeWhitelistCreate ⟨"", "d1", "10.0.0.0/24", "wanted"⟩ none
        [ReadResult.ok [⟨"A", "10.0.0.0/24", "other"⟩,
                        ⟨"B", "192.168.0.0/16", "wanted"⟩]]
        (ReadResult.ok [⟨"A", "10.0.0.0/24", "other"⟩,
                        ⟨"B", "192.168.0.0/16", "wanted"⟩])
        (ReadResult.ok [⟨"A", "10.0.0.0/24", "other"⟩,
                        ⟨"B", "192.168.0.0/16", "wanted"⟩]) =
      Except.ok ⟨"B", "d1", "192.168.0.0/16", "wanted"⟩ :=
  create_persists_description_match ⟨"", "d1", "10.0.0.0/24", "wanted"⟩
    [ReadResult.ok [⟨"A", "10.0.0.0/24", "other"⟩,
                    ⟨"B", "192.168.0.0/16", "wanted"⟩]] (some "A")
    [⟨"A", "10.0.0.0/24", "other"⟩, ⟨"B", "192.168.0.0/16", "wanted"⟩]
    ⟨"B", "192.168.0.0/16", "wanted"⟩ rfl rfl rfl

end Compose
